import Mathlib

/-!
Shallow embedding of the AquaRegulator telemetry server core:
the per-channel telemetry cache, the device command router, the
Modbus sensor gateway, the historical repository decoding, the
telemetry pipeline frame construction, and the frame JSON
serialisation.  Each definition is translated from the C++ source
files of the repository; theorems settle the specification claims.
-/

namespace AquaReg

/-! ## Data model (src/domain/telemetry_models.hpp) -/

/-- `enum class TelemetryChannel` — exactly three variants. -/
inductive TelemetryChannel where
  | Realtime
  | HistoricalEnvironment
  | HistoricalSoil
deriving DecidableEq, Repr

/-- `struct TelemetryReading` — label, timestamp and six numeric
measurements (C++ `double`s modelled as `ℚ`); every field defaults to
zero / `"Realtime"` exactly as in the C++ member initialisers. -/
structure TelemetryReading where
  label : String := "Realtime"
  timestamp : String := ""
  temperature : ℚ := 0
  humidity : ℚ := 0
  light : ℚ := 0
  soil : ℚ := 0
  gas : ℚ := 0
  raindrop : ℚ := 0
deriving DecidableEq, Repr

/-- `struct TelemetryFrame` — channel, readings, snapshot flag,
correlation id, with the C++ member initialisers as defaults. -/
structure TelemetryFrame where
  channel : TelemetryChannel := .Realtime
  readings : List TelemetryReading := []
  snapshot : Bool := true
  correlationId : String := ""
deriving DecidableEq, Repr

/-! ## Telemetry cache (src/unnamed/part_010, `TelemetryCache`)

The C++ class holds `std::unordered_map<TelemetryChannel,
std::deque<TelemetryReading>>`; we model the map as an association
list (an entry exists only for channels that were stored to, since
`snapshot` uses `find` and only `store` uses `operator[]`), and the
deque as a `List` (front = oldest). -/

/-- Association-list lookup standing for `unordered_map::find`. -/
def getBuf : List (TelemetryChannel × List TelemetryReading) → TelemetryChannel →
    Option (List TelemetryReading)
  | [], _ => none
  | (c', b) :: rest, c => if c' = c then some b else getBuf rest c

/-- Association-list update standing for `unordered_map::operator[] = `:
creates the entry when absent. -/
def setBuf : List (TelemetryChannel × List TelemetryReading) → TelemetryChannel →
    List TelemetryReading → List (TelemetryChannel × List TelemetryReading)
  | [], c, b => [(c, b)]
  | (c', b') :: rest, c, b =>
      if c' = c then (c, b) :: rest else (c', b') :: setBuf rest c b

/-- The cache state: channel → FIFO of readings (front = oldest). -/
abbrev CacheState := List (TelemetryChannel × List TelemetryReading)

/-- One `push_back` followed by the conditional `pop_front` of
`TelemetryCache::store` on a single channel's deque:
`buffer.push_back(reading); if (buffer.size() > capacity_) buffer.pop_front();`. -/
def pushBuf (capacity : ℕ) (buf : List TelemetryReading) (r : TelemetryReading) :
    List TelemetryReading :=
  let b := buf ++ [r]
  if capacity < b.length then b.tail else b

/-- `TelemetryCache::store(channel, reading)`. -/
def TelemetryCache.store (capacity : ℕ) (st : CacheState)
    (channel : TelemetryChannel) (reading : TelemetryReading) : CacheState :=
  let buffer := (getBuf st channel).getD []
  setBuf st channel (pushBuf capacity buffer reading)

/-- `TelemetryCache::snapshot(channel)` — a copy of the channel's deque,
empty when `find` misses; a `const` method, so it takes the state and
returns only the copy. -/
def TelemetryCache.snapshot (st : CacheState) (channel : TelemetryChannel) :
    List TelemetryReading :=
  (getBuf st channel).getD []

/-- A sequence of `store` calls applied in order. -/
def TelemetryCache.applyStores (capacity : ℕ) (st : CacheState)
    (ops : List (TelemetryChannel × TelemetryReading)) : CacheState :=
  ops.foldl (fun s p => TelemetryCache.store capacity s p.1 p.2) st

/-! ### Cache lemmas -/

theorem getBuf_setBuf_same (st : CacheState) (c : TelemetryChannel)
    (b : List TelemetryReading) : getBuf (setBuf st c b) c = some b := by
  induction st with
  | nil => simp [setBuf, getBuf]
  | cons hd tl ih =>
      by_cases h : hd.1 = c
      · simp [setBuf, getBuf, h]
      · simp [setBuf, getBuf, h, ih]

theorem getBuf_setBuf_other (st : CacheState) (c c' : TelemetryChannel)
    (b : List TelemetryReading) (hne : c ≠ c') :
    getBuf (setBuf st c b) c' = getBuf st c' := by
  induction st with
  | nil => simp [setBuf, getBuf, hne]
  | cons hd tl ih =>
      by_cases h : hd.1 = c
      · simp [setBuf, getBuf, h, hne]
      · simp [setBuf, getBuf, h, ih]

theorem snapshot_store_same (capacity : ℕ) (st : CacheState)
    (c : TelemetryChannel) (r : TelemetryReading) :
    TelemetryCache.snapshot (TelemetryCache.store capacity st c r) c
      = pushBuf capacity (TelemetryCache.snapshot st c) r := by
  simp [TelemetryCache.store, TelemetryCache.snapshot, getBuf_setBuf_same]

theorem snapshot_store_other (capacity : ℕ) (st : CacheState)
    (c c' : TelemetryChannel) (r : TelemetryReading) (hne : c ≠ c') :
    TelemetryCache.snapshot (TelemetryCache.store capacity st c r) c'
      = TelemetryCache.snapshot st c' := by
  simp [TelemetryCache.store, TelemetryCache.snapshot,
    getBuf_setBuf_other _ _ _ _ hne]

theorem snapshot_applyStores_same (capacity : ℕ) (c : TelemetryChannel)
    (rs : List TelemetryReading) : ∀ st : CacheState,
    TelemetryCache.snapshot
        (TelemetryCache.applyStores capacity st (rs.map (fun r => (c, r)))) c
      = rs.foldl (pushBuf capacity) (TelemetryCache.snapshot st c) := by
  induction rs with
  | nil => intro st; rfl
  | cons r rs ih =>
      intro st
      simpa [TelemetryCache.applyStores, List.foldl_cons,
        snapshot_store_same] using ih (TelemetryCache.store capacity st c r)

/-- Folding `pushBuf` from the empty deque keeps the last
`min (length, capacity)` readings, i.e. drops the oldest on overflow. -/
theorem foldl_pushBuf_eq_drop (capacity : ℕ) (hK : 1 ≤ capacity)
    (rs : List TelemetryReading) :
    rs.foldl (pushBuf capacity) [] = rs.drop (rs.length - capacity) := by
  induction rs using List.reverseRecOn with
  | nil => simp
  | append_singleton rs r ih =>
      rw [List.foldl_append, List.foldl_cons, List.foldl_nil, ih]
      by_cases h : capacity ≤ rs.length
      · have hdroplen : (rs.drop (rs.length - capacity)).length = capacity := by
          rw [List.length_drop]; omega
        have hne : rs.drop (rs.length - capacity) ≠ [] := by
          intro hnil
          rw [hnil] at hdroplen
          simp at hdroplen; omega
        have hcond : capacity < (rs.drop (rs.length - capacity) ++ [r]).length := by
          rw [List.length_append, hdroplen]; simp
        rw [pushBuf, if_pos hcond]
        obtain ⟨a, as, has⟩ := List.exists_cons_of_ne_nil hne
        have hdrop1 : rs.drop (rs.length - capacity + 1) = as := by
          have := List.tail_drop rs (rs.length - capacity)
          rw [has] at this
          simpa using this.symm
        rw [has]
        simp only [List.cons_append, List.tail_cons]
        rw [List.length_append, List.length_singleton]
        have harith : rs.length + 1 - capacity = rs.length - capacity + 1 := by omega
        rw [harith]
        rw [List.drop_append_of_le_length (by omega), hdrop1]
      · have hlt : rs.length < capacity := by omega
        have hdrop0 : rs.length - capacity = 0 := by omega
        rw [hdrop0, List.drop_zero, pushBuf]
        have hcond : ¬ capacity < (rs ++ [r]).length := by
          rw [List.length_append, List.length_singleton]; omega
        rw [if_neg hcond]
        rw [List.length_append, List.length_singleton]
        have : rs.length + 1 - capacity = 0 := by omega
        rw [this, List.drop_zero]

/-- Claim C1: For every channel `c` and capacity `K > 0`, after any sequence of `N`
`store(c, rᵢ)` calls on the Telemetry Cache, `snapshot(c)` returns a list of
length `min N K` equal to the last `min N K` stored readings in storage order
(oldest first); along the whole sequence the internal buffer size never
exceeds `K` (overflow drops the oldest element). -/
theorem cache_store_snapshot_bounded_fifo (K : ℕ) (hK : 1 ≤ K)
    (c : TelemetryChannel) (rs : List TelemetryReading) :
    TelemetryCache.snapshot
        (TelemetryCache.applyStores K [] (rs.map (fun r => (c, r)))) c
        = rs.drop (rs.length - K)
    ∧ (TelemetryCache.snapshot
        (TelemetryCache.applyStores K [] (rs.map (fun r => (c, r)))) c).length
        = min rs.length K
    ∧ ∀ n : ℕ, (TelemetryCache.snapshot
        (TelemetryCache.applyStores K [] ((rs.take n).map (fun r => (c, r)))) c).length
        ≤ K := by
  have hmain : ∀ l : List TelemetryReading,
      TelemetryCache.snapshot
          (TelemetryCache.applyStores K [] (l.map (fun r => (c, r)))) c
        = l.drop (l.length - K) := by
    intro l
    rw [snapshot_applyStores_same]
    simpa [TelemetryCache.snapshot, getBuf] using foldl_pushBuf_eq_drop K hK l
  refine ⟨hmain rs, ?_, ?_⟩
  · rw [hmain rs, List.length_drop]; omega
  · intro n
    rw [hmain (rs.take n), List.length_drop]
    omega

theorem cache_store_snapshot_bounded_fifo_is_applied :
    TelemetryCache.snapshot
        (TelemetryCache.applyStores 2 []
          ([⟨"a", "", 0, 0, 0, 0, 0, 0⟩, ⟨"b", "", 0, 0, 0, 0, 0, 0⟩,
            ⟨"c", "", 0, 0, 0, 0, 0, 0⟩].map
              (fun r => (TelemetryChannel.Realtime, r))))
        TelemetryChannel.Realtime
      = [⟨"b", "", 0, 0, 0, 0, 0, 0⟩, ⟨"c", "", 0, 0, 0, 0, 0, 0⟩] := by
  have h := cache_store_snapshot_bounded_fifo 2 (by decide)
    TelemetryChannel.Realtime
    [⟨"a", "", 0, 0, 0, 0, 0, 0⟩, ⟨"b", "", 0, 0, 0, 0, 0, 0⟩,
     ⟨"c", "", 0, 0, 0, 0, 0, 0⟩]
  exact h.1

theorem getBuf_applyStores_not_stored (K : ℕ) (c : TelemetryChannel)
    (ops : List (TelemetryChannel × TelemetryReading))
    (hc : c ∉ ops.map Prod.fst) : ∀ st : CacheState,
    getBuf (TelemetryCache.applyStores K st ops) c = getBuf st c := by
  induction ops with
  | nil => intro st; rfl
  | cons op rest ih =>
      intro st
      have hne : op.1 ≠ c := by
        intro h
        exact hc (by simp [h])
      have hrest : c ∉ rest.map Prod.fst := by
        intro h
        exact hc (by simp [h])
      rw [TelemetryCache.applyStores, List.foldl_cons]
      rw [← TelemetryCache.applyStores, ih hrest]
      simp [TelemetryCache.store, getBuf_setBuf_other _ _ _ _ hne]

/-- Claim C10: For every channel `c` on which no `store` has ever been
performed, `snapshot(c)` returns the empty list, and no per-channel buffer
exists for `c` in the cache (the read itself is a `const` lookup via `find`,
modelled as a pure function of the state, so it creates no entry); a
subscriber joining before any data thus receives an empty readings list. -/
theorem snapshot_never_stored_channel_empty (K : ℕ) (c : TelemetryChannel)
    (ops : List (TelemetryChannel × TelemetryReading))
    (hc : c ∉ ops.map Prod.fst) :
    TelemetryCache.snapshot (TelemetryCache.applyStores K [] ops) c = []
    ∧ getBuf (TelemetryCache.applyStores K [] ops) c = none := by
  have h := getBuf_applyStores_not_stored K c ops hc []
  constructor
  · rw [TelemetryCache.snapshot, h]; rfl
  · rw [h]; rfl

theorem snapshot_never_stored_channel_empty_is_applied :
    TelemetryCache.snapshot
        (TelemetryCache.applyStores 4 []
          [(TelemetryChannel.HistoricalSoil, ⟨"x", "", 1, 2, 3, 4, 5, 6⟩)])
        TelemetryChannel.Realtime = [] := by
  have h := snapshot_never_stored_channel_empty 4 TelemetryChannel.Realtime
    [(TelemetryChannel.HistoricalSoil, ⟨"x", "", 1, 2, 3, 4, 5, 6⟩)]
    (by decide)
  exact h.1

/-! ## Device command router (src/transport/sensor_data_settings.hpp)

`DeviceCommandRouter::parseLine` parses one JSON line into a command and
dispatches it; we model the command after JSON parsing as an inductive.
Numeric JSON fields are C++ `double`s (modelled as `ℚ`) or `int`s
(modelled as `ℤ`); missing-field defaults are applied by the parser. -/

/-- Model of C++ `static_cast<uint16_t>(x)` on a nonnegative `double`:
truncation toward zero, wrapped to 16 bits (all values cast by the router
are nonnegative, where truncation toward zero coincides with `floor`). -/
def toU16 (x : ℚ) : ℕ := (Int.floor x).toNat % 65536

/-- Model of C++ `static_cast<uint16_t>(m)` on an `int`: reduction
modulo `2^16`. -/
def intToU16 (m : ℤ) : ℕ := (m % 65536).toNat

/-- One parsed command line, after `nlohmann::json::parse` and the
`msg.value(...)` defaulting in `DeviceCommandRouter::parseLine`. -/
inductive DeviceCommand where
  | threshold (soil rain temp light : ℚ)
  | lightControl (light : ℚ)
  | modeSelect (mode : ℤ)
  | writeRegisterCmd (address : ℤ) (value : ℤ)
  | diagnostics
  | configReload
  | unknown
deriving DecidableEq, Repr

/-- The `(address, value)` pairs the router hands to
`SensorGateway::writeRegister`, in call order, per handler
(`handleThreshold`, `handleLightControl`, `handleModeSelect`,
`handleDirectWrite`). -/
def routerRequestedWrites : DeviceCommand → List (ℕ × ℕ)
  | .threshold soil rain temp light =>
      [(10, toU16 (soil * 100)), (11, toU16 (rain * 100)),
       (12, toU16 (temp * 100)), (13, toU16 (light * 100))]
  | .lightControl light => [(14, toU16 (light * 100))]
  | .modeSelect mode => [(15, intToU16 mode)]
  | .writeRegisterCmd address value =>
      if 0 ≤ address then [(intToU16 address, intToU16 value)] else []
  | _ => []

/-- The reply string `parseLine` returns for each recognised command
(the diagnostics reply is the provider's JSON, passed in by the caller). -/
def routerReply (diagnosticsJson : String) : DeviceCommand → String
  | .threshold _ _ _ _ =>
      "\x7b\"status\":\"ok\",\"message\":\"threshold updated\"\x7d"
  | .lightControl _ =>
      "\x7b\"status\":\"ok\",\"message\":\"light control updated\"\x7d"
  | .modeSelect _ =>
      "\x7b\"status\":\"ok\",\"message\":\"mode updated\"\x7d"
  | .writeRegisterCmd _ _ =>
      "\x7b\"status\":\"ok\",\"message\":\"register write queued\"\x7d"
  | .diagnostics => diagnosticsJson
  | .configReload =>
      "\x7b\"status\":\"ok\",\"message\":\"configuration reload requested\"\x7d"
  | .unknown =>
      "\x7b\"status\":\"error\",\"message\":\"unknown command\"\x7d"

/-- `SensorGateway::writeRegister` guarded by `ensureConnection`: when the
gateway has no live connection the call returns without touching any
register; otherwise the single register write takes effect. -/
def SensorGateway.writeEffect (connected : Bool) (address value : ℕ) :
    List (ℕ × ℕ) :=
  if connected then [(address, value)] else []

/-- Dispatch of one parsed command: the reply `parseLine` returns together
with the register writes that actually took effect on the gateway. -/
def DeviceCommandRouter.dispatch (connected : Bool) (diagnosticsJson : String)
    (cmd : DeviceCommand) : String × List (ℕ × ℕ) :=
  (routerReply diagnosticsJson cmd,
   (routerRequestedWrites cmd).flatMap
     (fun p => SensorGateway.writeEffect connected p.1 p.2))

/-- The four command types whose handlers issue register writes. -/
def writeLikeCommand : DeviceCommand → Bool
  | .threshold _ _ _ _ => true
  | .lightControl _ => true
  | .modeSelect _ => true
  | .writeRegisterCmd _ _ => true
  | _ => false

theorem toU16_concrete (n : ℕ) : toU16 ((n : ℚ)) = n % 65536 := by
  simp [toU16]

theorem dispatch_threshold_concrete :
    DeviceCommandRouter.dispatch true "" (.threshold 50 30 25 800)
      = ("\x7b\"status\":\"ok\",\"message\":\"threshold updated\"\x7d",
         [(10, 5000), (11, 3000), (12, 2500), (13, 14464)]) := by
  have h10 : toU16 ((50 : ℚ) * 100) = 5000 := by
    rw [show ((50 : ℚ) * 100) = ((5000 : ℕ) : ℚ) by norm_num, toU16_concrete]
  have h11 : toU16 ((30 : ℚ) * 100) = 3000 := by
    rw [show ((30 : ℚ) * 100) = ((3000 : ℕ) : ℚ) by norm_num, toU16_concrete]
  have h12 : toU16 ((25 : ℚ) * 100) = 2500 := by
    rw [show ((25 : ℚ) * 100) = ((2500 : ℕ) : ℚ) by norm_num, toU16_concrete]
  have h13 : toU16 ((800 : ℚ) * 100) = 14464 := by
    rw [show ((800 : ℚ) * 100) = ((80000 : ℕ) : ℚ) by norm_num, toU16_concrete]
  simp [DeviceCommandRouter.dispatch, routerRequestedWrites, routerReply,
    SensorGateway.writeEffect, h10, h11, h12, h13]

/-- Counterexample to claim C2 as stated: the threshold command
`soil=50, rain=30, temp=25, light=800` does not write `(13, 80000)` —
`800 × 100 = 80000` does not fit an unsigned 16-bit register, so the
cast stores `80000 mod 2^16 = 14464`. -/
theorem threshold_writes_not_80000 :
    (DeviceCommandRouter.dispatch true "" (.threshold 50 30 25 800)).2
      ≠ [(10, 5000), (11, 3000), (12, 2500), (13, 80000)] := by
  rw [dispatch_threshold_concrete]
  decide

/-- Claim C2 (amended): processing the command line
`type=threshold, soil=50, rain=30, temp=25, light=800` causes register
writes `(10, 5000), (11, 3000), (12, 2500), (13, 14464)` in that order —
`14464 = 80000 mod 2^16` — and produces the reply
`status ok / threshold updated`; in general the threshold command writes
registers 10..13 with each input value × 100 truncated to an unsigned
16-bit integer. -/
theorem threshold_command_writes_and_reply :
    DeviceCommandRouter.dispatch true "" (.threshold 50 30 25 800)
      = ("\x7b\"status\":\"ok\",\"message\":\"threshold updated\"\x7d",
         [(10, 5000), (11, 3000), (12, 2500), (13, 14464)])
    ∧ ∀ soil rain temp light : ℚ,
        routerRequestedWrites (.threshold soil rain temp light)
          = [(10, toU16 (soil * 100)), (11, toU16 (rain * 100)),
             (12, toU16 (temp * 100)), (13, toU16 (light * 100))] := by
  exact ⟨dispatch_threshold_concrete, fun _ _ _ _ => rfl⟩

/-- Claim C9: for every threshold, light_control, mode_select or
write_register command, the reply is the same `status ok` line whether or
not the gateway's register writes take effect: the reply does not depend
on the connection state, and with the gateway disconnected no register is
written, so an ok ACK does not imply the device register was updated. -/
theorem ok_ack_independent_of_write_outcome (cmd : DeviceCommand)
    (hw : writeLikeCommand cmd = true) (connected : Bool)
    (diagnosticsJson : String) :
    (DeviceCommandRouter.dispatch connected diagnosticsJson cmd).1
      = (DeviceCommandRouter.dispatch true diagnosticsJson cmd).1
    ∧ (DeviceCommandRouter.dispatch false diagnosticsJson cmd).2 = []
    ∧ (DeviceCommandRouter.dispatch connected diagnosticsJson cmd).1
      = routerReply diagnosticsJson cmd := by
  refine ⟨rfl, ?_, rfl⟩
  cases cmd with
  | threshold s r t l => rfl
  | lightControl l => rfl
  | modeSelect m => rfl
  | writeRegisterCmd a v =>
      by_cases h : (0 : ℤ) ≤ a <;>
        simp [DeviceCommandRouter.dispatch, routerRequestedWrites, h,
          SensorGateway.writeEffect]
  | diagnostics => simp [writeLikeCommand] at hw
  | configReload => simp [writeLikeCommand] at hw
  | unknown => simp [writeLikeCommand] at hw

theorem ok_ack_independent_of_write_outcome_is_applied :
    (DeviceCommandRouter.dispatch false "" (.writeRegisterCmd 20 5000)).1
      = "\x7b\"status\":\"ok\",\"message\":\"register write queued\"\x7d"
    ∧ (DeviceCommandRouter.dispatch false "" (.writeRegisterCmd 20 5000)).2
      = [] := by
  have h := ok_ack_independent_of_write_outcome (.writeRegisterCmd 20 5000)
    (by decide) false ""
  exact ⟨h.1.trans rfl, h.2.1⟩

/-! ## Line splitting in `DeviceCommandRouter::feed`

`feed(connId, chunk, respond)` appends `chunk` to the per-connection
buffer and then repeatedly extracts the prefix up to the first `\n`
(erasing it including the `\n`) and dispatches it as one command line.
Bytes are modelled as `List Char`; the per-connection buffer for a fixed
connection id is the splitter state. -/

/-- The `while (buffer.find('\n') != npos)` loop of `feed`, applied to a
byte string: returns the dispatched lines in order and the remaining
buffer (the bytes after the last `\n`). -/
def splitLines : List Char → List (List Char) × List Char
  | [] => ([], [])
  | c :: rest =>
      let p := splitLines rest
      if c = '\n' then ([] :: p.1, p.2)
      else
        match p.1 with
        | [] => ([], c :: p.2)
        | l :: ls => ((c :: l) :: ls, p.2)

/-- `DeviceCommandRouter::feed` for one connection: append the chunk to
the buffer, dispatch every complete line, keep the tail. -/
def DeviceCommandRouter.feed (buffer chunk : List Char) :
    List (List Char) × List Char :=
  splitLines (buffer ++ chunk)

/-- Feeding a list of chunks in order: the per-connection buffer persists
from one `feed` call to the next, dispatched lines accumulate. -/
def DeviceCommandRouter.feedAll (buffer : List Char) :
    List (List Char) → List (List Char) × List Char
  | [] => ([], buffer)
  | chunk :: rest =>
      let r := DeviceCommandRouter.feed buffer chunk
      let rs := DeviceCommandRouter.feedAll r.2 rest
      (r.1 ++ rs.1, rs.2)

theorem splitLines_newline_cons (rest : List Char) :
    splitLines ('\n' :: rest)
      = ([] :: (splitLines rest).1, (splitLines rest).2) := by
  simp [splitLines]

theorem splitLines_cons_nil (c : Char) (rest : List Char) (hc : c ≠ '\n')
    (h : (splitLines rest).1 = []) :
    splitLines (c :: rest) = ([], c :: (splitLines rest).2) := by
  simp only [splitLines, if_neg hc]
  rw [h]

theorem splitLines_cons_cons (c : Char) (rest : List Char)
    (l : List Char) (ls : List (List Char)) (hc : c ≠ '\n')
    (h : (splitLines rest).1 = l :: ls) :
    splitLines (c :: rest) = ((c :: l) :: ls, (splitLines rest).2) := by
  simp only [splitLines, if_neg hc]
  rw [h]

theorem splitLines_no_newline (s : List Char) (hs : '\n' ∉ s) :
    splitLines s = ([], s) := by
  induction s with
  | nil => rfl
  | cons c rest ih =>
      have hc : c ≠ '\n' := fun h => hs (by simp [h])
      have hrest : '\n' ∉ rest := fun h => hs (by simp [h])
      rw [splitLines_cons_nil c rest hc (by rw [ih hrest])]
      rw [ih hrest]

theorem splitLines_append (s t : List Char) :
    splitLines (s ++ t)
      = ((splitLines s).1 ++ (splitLines ((splitLines s).2 ++ t)).1,
         (splitLines ((splitLines s).2 ++ t)).2) := by
  induction s with
  | nil => simp [splitLines]
  | cons c rest ih =>
      by_cases hc : c = '\n'
      · subst hc
        rw [List.cons_append, splitLines_newline_cons, ih,
          splitLines_newline_cons]
        simp
      · cases hrest : (splitLines rest).1 with
        | nil =>
            have hih : splitLines (rest ++ t)
                = ((splitLines ((splitLines rest).2 ++ t)).1,
                   (splitLines ((splitLines rest).2 ++ t)).2) := by
              rw [ih, hrest]; simp
            rw [List.cons_append]
            rw [splitLines_cons_nil c rest hc hrest, List.cons_append]
            cases hx : (splitLines ((splitLines rest).2 ++ t)).1 with
            | nil =>
                have h1 : (splitLines (rest ++ t)).1 = [] := by
                  rw [hih]; exact hx
                rw [splitLines_cons_nil c (rest ++ t) hc h1]
                rw [splitLines_cons_nil c ((splitLines rest).2 ++ t) hc hx]
                rw [hih]
                simp
            | cons l ls =>
                have h1 : (splitLines (rest ++ t)).1 = l :: ls := by
                  rw [hih]; exact hx
                rw [splitLines_cons_cons c (rest ++ t) l ls hc h1]
                rw [splitLines_cons_cons c ((splitLines rest).2 ++ t) l ls hc hx]
                rw [hih]
                simp
        | cons l ls =>
            have h1 : (splitLines (rest ++ t)).1
                = l :: (ls ++ (splitLines ((splitLines rest).2 ++ t)).1) := by
              rw [ih, hrest]; rfl
            rw [List.cons_append]
            rw [splitLines_cons_cons c (rest ++ t)
              l (ls ++ (splitLines ((splitLines rest).2 ++ t)).1) hc h1]
            rw [splitLines_cons_cons c rest l ls hc hrest]
            rw [ih]
            simp

theorem splitLines_buffer_no_newline (s : List Char) :
    '\n' ∉ (splitLines s).2 := by
  induction s with
  | nil => simp [splitLines]
  | cons c rest ih =>
      by_cases hc : c = '\n'
      · subst hc
        rw [splitLines_newline_cons]
        exact ih
      · cases hrest : (splitLines rest).1 with
        | nil =>
            rw [splitLines_cons_nil c rest hc hrest]
            simp only [List.mem_cons, not_or]
            exact ⟨fun h => hc h.symm, ih⟩
        | cons l ls =>
            rw [splitLines_cons_cons c rest l ls hc hrest]
            exact ih

theorem feedAll_eq_splitLines (chunks : List (List Char)) :
    ∀ buf : List Char, '\n' ∉ buf →
    DeviceCommandRouter.feedAll buf chunks
      = splitLines (buf ++ chunks.flatten) := by
  induction chunks with
  | nil =>
      intro buf hbuf
      rw [DeviceCommandRouter.feedAll, List.flatten_nil, List.append_nil,
        splitLines_no_newline buf hbuf]
  | cons chunk rest ih =>
      intro buf hbuf
      rw [DeviceCommandRouter.feedAll]
      simp only [DeviceCommandRouter.feed]
      rw [ih _ (splitLines_buffer_no_newline (buf ++ chunk))]
      rw [List.flatten_cons, ← List.append_assoc]
      rw [splitLines_append (buf ++ chunk) rest.flatten]

/-- Claim C5: for every byte stream and every partition of it into chunks,
feeding the chunks in order to the Command Router's `feed` (for a fixed
connection id) dispatches exactly the same sequence of command lines — the
maximal `\n`-free prefixes, in order — as feeding the entire stream in one
call; the bytes after the last `\n` remain in the per-connection buffer
across calls (and contain no `\n`). -/
theorem feed_chunked_eq_feed_whole (chunks : List (List Char)) :
    DeviceCommandRouter.feedAll [] chunks
      = DeviceCommandRouter.feed [] chunks.flatten
    ∧ '\n' ∉ (DeviceCommandRouter.feedAll [] chunks).2 := by
  have h := feedAll_eq_splitLines chunks [] (by simp)
  constructor
  · rw [h]; rfl
  · rw [h]
    simpa using splitLines_buffer_no_newline chunks.flatten

/-! ## Sensor gateway (src/infrastructure/sensors/sensor_data.hpp)

`SensorGateway::readRealtime` reads `config_.registers` 16-bit registers
from address 0 and decodes them into a `TelemetryReading`; the register
vector contents are the input here, the wall-clock timestamp a
parameter. -/

/-- The decode step of `SensorGateway::readRealtime`: label `Realtime`,
current timestamp, and — when at least six registers are present — the
fixed index schema 0=soil, 1=gas, 2=raindrop, 3=temperature, 4=humidity,
5=light, each register value divided by `100.0`. -/
def SensorGateway.decodeRealtime (registers : List ℕ) (now : String) :
    TelemetryReading :=
  if 6 ≤ registers.length then
    { label := "Realtime", timestamp := now,
      soil := (registers.getD 0 0 : ℚ) / 100,
      gas := (registers.getD 1 0 : ℚ) / 100,
      raindrop := (registers.getD 2 0 : ℚ) / 100,
      temperature := (registers.getD 3 0 : ℚ) / 100,
      humidity := (registers.getD 4 0 : ℚ) / 100,
      light := (registers.getD 5 0 : ℚ) / 100 }
  else
    { label := "Realtime", timestamp := now }

/-- Claim C4: for every register vector read by `readRealtime`: with at
least six registers the produced Reading maps index 0 to soil, 1 to gas,
2 to raindrop, 3 to temperature, 4 to humidity, 5 to light, each
register's integer value divided by 100; with fewer than six registers
all six measurements are zero; label `Realtime` and the current
timestamp in both cases. -/
theorem readRealtime_register_schema (registers : List ℕ) (now : String) :
    (6 ≤ registers.length →
      SensorGateway.decodeRealtime registers now
        = { label := "Realtime", timestamp := now,
            soil := (registers.getD 0 0 : ℚ) / 100,
            gas := (registers.getD 1 0 : ℚ) / 100,
            raindrop := (registers.getD 2 0 : ℚ) / 100,
            temperature := (registers.getD 3 0 : ℚ) / 100,
            humidity := (registers.getD 4 0 : ℚ) / 100,
            light := (registers.getD 5 0 : ℚ) / 100 })
    ∧ (registers.length < 6 →
      SensorGateway.decodeRealtime registers now
        = { label := "Realtime", timestamp := now,
            temperature := 0, humidity := 0, light := 0,
            soil := 0, gas := 0, raindrop := 0 }) := by
  constructor
  · intro h
    rw [SensorGateway.decodeRealtime, if_pos h]
  · intro h
    rw [SensorGateway.decodeRealtime, if_neg (by omega)]

theorem readRealtime_register_schema_is_applied :
    SensorGateway.decodeRealtime [100, 200, 300, 400, 500, 600] "t"
      = { label := "Realtime", timestamp := "t",
          soil := 1, gas := 2, raindrop := 3,
          temperature := 4, humidity := 5, light := 6 }
    ∧ SensorGateway.decodeRealtime [100, 200] "t"
      = { label := "Realtime", timestamp := "t",
          temperature := 0, humidity := 0, light := 0,
          soil := 0, gas := 0, raindrop := 0 } := by
  constructor
  · rw [(readRealtime_register_schema [100, 200, 300, 400, 500, 600] "t").1
      (by decide)]
    norm_num [List.getD]
  · exact (readRealtime_register_schema [100, 200] "t").2 (by decide)

/-! ### Reconnect throttle (`SensorGateway::ensureConnection`)

State: whether a Modbus handle is held (`modbus_`), and the steady-clock
time of the last connect attempt (`lastAttempt_`, default-initialised to
the clock epoch 0).  The environment here is the one of the claim: the
Modbus endpoint is down, so every connect attempt fails.  Time is the
steady clock in seconds, modelled as `ℕ` (the clock is monotone, so
`now - lastAttempt_` is the truncated subtraction). -/

structure GatewayState where
  connected : Bool
  lastAttempt : ℕ
deriving DecidableEq, Repr

/-- `SensorGateway::ensureConnection` with the endpoint down: returns
whether a connection is available, the number of socket connect attempts
performed by this call (0 or 1), and the new state.  Within
`retrySeconds` of the last attempt the call short-circuits without
touching the socket; otherwise it stamps `lastAttempt_`, attempts, fails
(endpoint down) and resets the handle. -/
def ensureConnectionDown (retrySeconds : ℕ) (st : GatewayState) (now : ℕ) :
    Bool × ℕ × GatewayState :=
  if st.connected then (true, 0, st)
  else if now - st.lastAttempt < retrySeconds then (false, 0, st)
  else (false, 1, { connected := false, lastAttempt := now })

/-- One `readRealtime()` / `writeRegister()` call with the endpoint down
and no live connection: both operations first run `ensureConnection`,
and when it fails `readRealtime` returns `nullopt` and `writeRegister`
returns with no effect — modelled as `none`. -/
def gatewayCallDown (retrySeconds : ℕ) (st : GatewayState) (now : ℕ) :
    Option Unit × ℕ × GatewayState :=
  let r := ensureConnectionDown retrySeconds st now
  (none, r.2.1, r.2.2)

/-- A sequence of gateway calls at the given times: the list of connect
attempts made per call, plus the final state. -/
def gatewayCallsDown (retrySeconds : ℕ) (st : GatewayState) :
    List ℕ → List ℕ × GatewayState
  | [] => ([], st)
  | t :: ts =>
      let r := gatewayCallDown retrySeconds st t
      let rs := gatewayCallsDown retrySeconds r.2.2 ts
      (r.2.1 :: rs.1, rs.2)

/-- Claim C7: while the gateway is disconnected, any `readRealtime` or
`writeRegister` call strictly less than `retrySeconds` after the last
connect attempt performs no socket operation, returns empty / has no
effect and leaves the state unchanged; and in the concrete scenario
(`retrySeconds = 5`, endpoint down, calls at `t, t+1, t+2, t+3, t+5`
with the initial epoch `lastAttempt` at least `retrySeconds` in the
past) exactly one connect attempt is made at `t` and one at `t+5`, with
every call returning empty. -/
theorem gateway_retry_throttle :
    (∀ (retrySeconds : ℕ) (st : GatewayState) (now : ℕ),
      st.connected = false → now - st.lastAttempt < retrySeconds →
      gatewayCallDown retrySeconds st now = (none, 0, st))
    ∧ (∀ t : ℕ, 5 ≤ t →
      gatewayCallsDown 5 ⟨false, 0⟩ [t, t + 1, t + 2, t + 3, t + 5]
        = ([1, 0, 0, 0, 1], ⟨false, t + 5⟩)) := by
  constructor
  · intro retrySeconds st now hconn hwin
    rw [gatewayCallDown, ensureConnectionDown]
    rw [hconn]
    simp [hwin]
  · intro t ht
    have h0 : ¬ t < 5 := by omega
    simp [gatewayCallsDown, gatewayCallDown, ensureConnectionDown, h0]

theorem gateway_retry_throttle_is_applied :
    gatewayCallDown 5 ⟨false, 3⟩ 4 = (none, 0, ⟨false, 3⟩)
    ∧ gatewayCallsDown 5 ⟨false, 0⟩ [5, 6, 7, 8, 10]
      = ([1, 0, 0, 0, 1], ⟨false, 10⟩) := by
  constructor
  · exact gateway_retry_throttle.1 5 ⟨false, 3⟩ 4 rfl (by decide)
  · exact gateway_retry_throttle.2 5 (by decide)

/-! ## Historical repository
(src/infrastructure/database/telemetry_repository.cxx)

A query row is four nullable SQL text cells (`MYSQL_ROW` entries, null
pointer = SQL NULL); the rows arrive newest first (`ORDER BY time DESC`).
`std::stod` is an uninterpreted string-to-number conversion passed in as
a parameter. -/

/-- One row of `environmental_conditions(time, temperature, humidity,
light)`. -/
structure EnvRow where
  time : Option String
  temperature : Option String
  humidity : Option String
  light : Option String

/-- One row of `soil_and_air_quality(time, soil, gas, raindrop)`. -/
structure SoilRow where
  time : Option String
  soil : Option String
  gas : Option String
  raindrop : Option String

/-- `TelemetryRepository::buildEnvReading`. -/
def buildEnvReading (stod : String → ℚ) (row : EnvRow) : TelemetryReading :=
  { label := "Historical_ENV",
    timestamp := match row.time with | some s => s | none => "N/A",
    temperature := match row.temperature with | some s => stod s | none => 0,
    humidity := match row.humidity with | some s => stod s | none => 0,
    light := match row.light with | some s => stod s | none => 0,
    soil := 0, gas := 0, raindrop := 0 }

/-- `TelemetryRepository::buildSoilReading`. -/
def buildSoilReading (stod : String → ℚ) (row : SoilRow) : TelemetryReading :=
  { label := "Historical_Soil",
    timestamp := match row.time with | some s => s | none => "N/A",
    temperature := 0, humidity := 0, light := 0,
    soil := match row.soil with | some s => stod s | none => 0,
    gas := match row.gas with | some s => stod s | none => 0,
    raindrop := match row.raindrop with | some s => stod s | none => 0 }

/-- `TelemetryRepository::loadEnvironmental` after the query succeeded:
decode each fetched row in arrival order (newest first), then
`std::reverse` so the result is chronological (oldest first). -/
def loadEnvironmental (stod : String → ℚ) (rows : List EnvRow) :
    List TelemetryReading :=
  (rows.map (buildEnvReading stod)).reverse

/-- `TelemetryRepository::loadSoilAndAir` after the query succeeded. -/
def loadSoilAndAir (stod : String → ℚ) (rows : List SoilRow) :
    List TelemetryReading :=
  (rows.map (buildSoilReading stod)).reverse

theorem buildEnvReading_timestamp (stod : String → ℚ) (row : EnvRow) :
    (buildEnvReading stod row).timestamp = row.time.getD "N/A" := by
  obtain ⟨t, tp, hu, li⟩ := row
  cases t <;> rfl

theorem buildSoilReading_timestamp (stod : String → ℚ) (row : SoilRow) :
    (buildSoilReading stod row).timestamp = row.time.getD "N/A" := by
  obtain ⟨t, so, ga, ra⟩ := row
  cases t <;> rfl

theorem buildEnvReading_values (stod : String → ℚ) (row : EnvRow) :
    (buildEnvReading stod row).temperature = (row.temperature.map stod).getD 0
    ∧ (buildEnvReading stod row).humidity = (row.humidity.map stod).getD 0
    ∧ (buildEnvReading stod row).light = (row.light.map stod).getD 0 := by
  obtain ⟨t, tp, hu, li⟩ := row
  cases tp <;> cases hu <;> cases li <;> exact ⟨rfl, rfl, rfl⟩

theorem buildSoilReading_values (stod : String → ℚ) (row : SoilRow) :
    (buildSoilReading stod row).soil = (row.soil.map stod).getD 0
    ∧ (buildSoilReading stod row).gas = (row.gas.map stod).getD 0
    ∧ (buildSoilReading stod row).raindrop = (row.raindrop.map stod).getD 0 := by
  obtain ⟨t, so, ga, ra⟩ := row
  cases so <;> cases ga <;> cases ra <;> exact ⟨rfl, rfl, rfl⟩

/-- Claim C3: for every limit, `loadEnvironmental` and `loadSoilAndAir`
return readings in chronological order (oldest first), obtained by
reversing the DESC-ordered query rows — the timestamp sequence of the
result is the reverse of the row time sequence, so rows with times
`[T3, T2, T1]` yield timestamps `[T1, T2, T3]` — with a NULL numeric
cell decoded as 0, a NULL time as `"N/A"`, and labels `Historical_ENV`
and `Historical_Soil` respectively. -/
theorem repository_chronological_order (stod : String → ℚ)
    (envRows : List EnvRow) (soilRows : List SoilRow) :
    (loadEnvironmental stod envRows).map TelemetryReading.timestamp
      = (envRows.map (fun row => row.time.getD "N/A")).reverse
    ∧ (loadSoilAndAir stod soilRows).map TelemetryReading.timestamp
      = (soilRows.map (fun row => row.time.getD "N/A")).reverse
    ∧ (∀ r ∈ loadEnvironmental stod envRows, r.label = "Historical_ENV"
        ∧ ∃ row ∈ envRows,
            r.temperature = (row.temperature.map stod).getD 0
            ∧ r.humidity = (row.humidity.map stod).getD 0
            ∧ r.light = (row.light.map stod).getD 0)
    ∧ (∀ r ∈ loadSoilAndAir stod soilRows, r.label = "Historical_Soil"
        ∧ ∃ row ∈ soilRows,
            r.soil = (row.soil.map stod).getD 0
            ∧ r.gas = (row.gas.map stod).getD 0
            ∧ r.raindrop = (row.raindrop.map stod).getD 0) := by
  refine ⟨?_, ?_, ?_, ?_⟩
  · rw [loadEnvironmental, List.map_reverse, List.map_map]
    congr 1
    apply List.map_congr_left
    intro row _
    exact buildEnvReading_timestamp stod row
  · rw [loadSoilAndAir, List.map_reverse, List.map_map]
    congr 1
    apply List.map_congr_left
    intro row _
    exact buildSoilReading_timestamp stod row
  · intro r hr
    rw [loadEnvironmental, List.mem_reverse, List.mem_map] at hr
    obtain ⟨row, hrow, hre⟩ := hr
    subst hre
    obtain ⟨h1, h2, h3⟩ := buildEnvReading_values stod row
    exact ⟨rfl, row, hrow, h1, h2, h3⟩
  · intro r hr
    rw [loadSoilAndAir, List.mem_reverse, List.mem_map] at hr
    obtain ⟨row, hrow, hre⟩ := hr
    subst hre
    obtain ⟨h1, h2, h3⟩ := buildSoilReading_values stod row
    exact ⟨rfl, row, hrow, h1, h2, h3⟩

theorem repository_chronological_order_is_applied :
    (loadEnvironmental (fun _ => 0)
        [⟨some "T3", none, none, none⟩, ⟨some "T2", none, none, none⟩,
         ⟨some "T1", none, none, none⟩]).map TelemetryReading.timestamp
      = ["T1", "T2", "T3"]
    ∧ (buildEnvReading (fun _ => 0) ⟨some "T1", none, none, none⟩).label
      = "Historical_ENV" := by
  have h := repository_chronological_order (fun _ => 0)
    [⟨some "T3", none, none, none⟩, ⟨some "T2", none, none, none⟩,
     ⟨some "T1", none, none, none⟩] []
  constructor
  · exact h.1.trans (by rfl)
  · exact (h.2.2.1 (buildEnvReading (fun _ => 0) ⟨some "T1", none, none, none⟩)
      (by exact List.mem_cons_self _ _)).1

/-! ## Telemetry pipeline frame construction (src/unnamed/part_001,
`TelemetryService`)

Correlation ids are produced by an external counter; they are passed
in as strings here. -/

/-- `TelemetryService::buildFrame` — note the unconditional
`frame.snapshot = true`. -/
def TelemetryService.buildFrame (channel : TelemetryChannel)
    (readings : List TelemetryReading) (cid : String) : TelemetryFrame :=
  { channel := channel, readings := readings, snapshot := true,
    correlationId := cid }

/-- `TelemetryService::buildSnapshot` — the snapshot-provider frame for
one channel, drawn from the cache. -/
def TelemetryService.buildSnapshot (st : CacheState)
    (channel : TelemetryChannel) (cid : String) : TelemetryFrame :=
  TelemetryService.buildFrame channel (TelemetryCache.snapshot st channel) cid

/-- The frame `TelemetryService::processRealtime` publishes when the
realtime read succeeded and subscribers exist. -/
def TelemetryService.processRealtimeFrame (reading : TelemetryReading)
    (cid : String) : TelemetryFrame :=
  { channel := .Realtime, snapshot := false, correlationId := cid,
    readings := [reading] }

/-- The frames `TelemetryService::processHistorical` publishes when
subscribers exist: one per non-empty historical channel, via
`buildFrame`. -/
def TelemetryService.processHistoricalFrames
    (env soil : List TelemetryReading) (cidEnv cidSoil : String) :
    List TelemetryFrame :=
  (if env = [] then []
   else [TelemetryService.buildFrame .HistoricalEnvironment env cidEnv])
  ++ (if soil = [] then []
      else [TelemetryService.buildFrame .HistoricalSoil soil cidSoil])

/-- The three frames the snapshot provider registered in the
`TelemetryService` constructor returns, in list order. -/
def TelemetryService.snapshotProviderFrames (st : CacheState)
    (cid1 cid2 cid3 : String) : List TelemetryFrame :=
  [TelemetryService.buildSnapshot st .Realtime cid1,
   TelemetryService.buildSnapshot st .HistoricalEnvironment cid2,
   TelemetryService.buildSnapshot st .HistoricalSoil cid3]

/-- Claim C8: every frame published by the pipeline's historical tick and
every snapshot-provider frame carries `snapshot = true`, while every
frame published by the realtime tick carries `snapshot = false`. -/
theorem historical_snapshot_flag_true_realtime_false :
    (∀ (env soil : List TelemetryReading) (cidEnv cidSoil : String),
      ∀ f ∈ TelemetryService.processHistoricalFrames env soil cidEnv cidSoil,
        f.snapshot = true)
    ∧ (∀ (st : CacheState) (cid1 cid2 cid3 : String),
      ∀ f ∈ TelemetryService.snapshotProviderFrames st cid1 cid2 cid3,
        f.snapshot = true)
    ∧ (∀ (reading : TelemetryReading) (cid : String),
      (TelemetryService.processRealtimeFrame reading cid).snapshot = false) := by
  refine ⟨?_, ?_, ?_⟩
  · intro env soil cidEnv cidSoil f hf
    rw [TelemetryService.processHistoricalFrames] at hf
    rw [List.mem_append] at hf
    rcases hf with hf | hf <;>
      · split at hf
        · simp at hf
        · rw [List.mem_singleton] at hf
          subst hf
          rfl
  · intro st cid1 cid2 cid3 f hf
    rw [TelemetryService.snapshotProviderFrames] at hf
    simp only [List.mem_cons, List.not_mem_nil, or_false] at hf
    rcases hf with hf | hf | hf <;> (subst hf; rfl)
  · intro reading cid
    rfl

theorem historical_snapshot_flag_is_applied :
    (TelemetryService.buildFrame .HistoricalEnvironment
        [⟨"e", "", 0, 0, 0, 0, 0, 0⟩] "frame-2").snapshot = true
    ∧ (TelemetryService.processRealtimeFrame
        ⟨"r", "", 0, 0, 0, 0, 0, 0⟩ "frame-1").snapshot = false := by
  constructor
  · exact historical_snapshot_flag_true_realtime_false.1
      [⟨"e", "", 0, 0, 0, 0, 0, 0⟩] [] "frame-2" "x"
      (TelemetryService.buildFrame .HistoricalEnvironment
        [⟨"e", "", 0, 0, 0, 0, 0, 0⟩] "frame-2")
      (by simp [TelemetryService.processHistoricalFrames])
  · exact historical_snapshot_flag_true_realtime_false.2.2
      ⟨"r", "", 0, 0, 0, 0, 0, 0⟩ "frame-1"

/-! ## Frame JSON serialisation (src/domain/telemetry_models.hpp)

JSON values, with numbers as `ℚ` (C++ `double`s). -/

inductive Json where
  | str : String → Json
  | num : ℚ → Json
  | bool : Bool → Json
  | arr : List Json → Json
  | obj : List (String × Json) → Json

/-- Object-field lookup, first match wins. -/
def lookupKV : List (String × Json) → String → Option Json
  | [], _ => none
  | (k', v) :: rest, k => if k' = k then some v else lookupKV rest k

/-- `json[key]` read access on an object. -/
def Json.getField (j : Json) (k : String) : Option Json :=
  match j with
  | .obj kvs => lookupKV kvs k
  | _ => none

/-- `domain::channelName` — the serialised channel names. -/
def channelName : TelemetryChannel → String
  | .Realtime => "realtime"
  | .HistoricalEnvironment => "historical_env"
  | .HistoricalSoil => "historical_soil"

/-- `domain::toJson(const TelemetryReading&)`. -/
def TelemetryReading.toJson (r : TelemetryReading) : Json :=
  .obj [("label", .str r.label), ("timestamp", .str r.timestamp),
        ("temperature", .num r.temperature), ("humidity", .num r.humidity),
        ("light", .num r.light), ("soil", .num r.soil),
        ("gas", .num r.gas), ("raindrop", .num r.raindrop)]

/-- `domain::toJson(const TelemetryFrame&)`. -/
def TelemetryFrame.toJson (f : TelemetryFrame) : Json :=
  .obj [("channel", .str (channelName f.channel)),
        ("snapshot", .bool f.snapshot),
        ("correlationId", .str f.correlationId),
        ("readings", .arr (f.readings.map TelemetryReading.toJson))]

/-- Modelled from the spec: the repository contains no frame decoder (the
clients decode the wire format), so the inverse of the §6 body schema is
taken from the spec's words: the serialised channel names map back to the
three channel variants. -/
def channelOfName (s : String) : Option TelemetryChannel :=
  if s = "realtime" then some .Realtime
  else if s = "historical_env" then some .HistoricalEnvironment
  else if s = "historical_soil" then some .HistoricalSoil
  else none

/-- Modelled from the spec: decoder for one reading object of the §6 body
schema (`label`, `timestamp` strings; `temperature`, `humidity`, `light`,
`soil`, `gas`, `raindrop` numbers). -/
def parseReading (j : Json) : Option TelemetryReading :=
  match j.getField "label", j.getField "timestamp",
      j.getField "temperature", j.getField "humidity",
      j.getField "light", j.getField "soil",
      j.getField "gas", j.getField "raindrop" with
  | some (.str label), some (.str timestamp), some (.num temperature),
    some (.num humidity), some (.num light), some (.num soil),
    some (.num gas), some (.num raindrop) =>
      some ⟨label, timestamp, temperature, humidity, light, soil, gas,
            raindrop⟩
  | _, _, _, _, _, _, _, _ => none

/-- Modelled from the spec: decoder for a list of reading objects; fails
when any element fails. -/
def parseReadings : List Json → Option (List TelemetryReading)
  | [] => some []
  | j :: rest =>
      match parseReading j, parseReadings rest with
      | some r, some rs => some (r :: rs)
      | _, _ => none

/-- Modelled from the spec: decoder for a frame body of the §6 schema
(`channel` name string, `snapshot` bool, `correlationId` string,
`readings` array). -/
def parseFrame (j : Json) : Option TelemetryFrame :=
  match j.getField "channel", j.getField "snapshot",
      j.getField "correlationId", j.getField "readings" with
  | some (.str cn), some (.bool snap), some (.str cid), some (.arr rs) =>
      match channelOfName cn, parseReadings rs with
      | some channel, some readings => some ⟨channel, readings, snap, cid⟩
      | _, _ => none
  | _, _, _, _ => none

theorem parseReading_toJson (r : TelemetryReading) :
    parseReading (TelemetryReading.toJson r) = some r := by
  obtain ⟨l, t, te, hu, li, so, ga, ra⟩ := r
  rfl

theorem parseReadings_map_toJson (rs : List TelemetryReading) :
    parseReadings (rs.map TelemetryReading.toJson) = some rs := by
  induction rs with
  | nil => rfl
  | cons r rest ih =>
      rw [List.map_cons, parseReadings, parseReading_toJson r, ih]

theorem channelOfName_channelName (c : TelemetryChannel) :
    channelOfName (channelName c) = some c := by
  cases c <;> rfl

/-- Claim C6: for every frame `F` — any of the three channel variants, any
readings list, any snapshot flag, any correlation id — serialising `F` to
its JSON body and parsing that body back yields `some F`: every field
(channel, snapshot, correlationId, and each reading's label, timestamp,
temperature, humidity, light, soil, gas, raindrop) survives the
round-trip. -/
theorem frame_json_roundtrip (f : TelemetryFrame) :
    parseFrame (TelemetryFrame.toJson f) = some f := by
  obtain ⟨channel, readings, snap, cid⟩ := f
  simp only [TelemetryFrame.toJson, parseFrame, Json.getField, lookupKV,
    String.reduceEq, reduceIte, channelOfName_channelName,
    parseReadings_map_toJson]

end AquaReg
